/-
  Verification of the Genesis Sync Storage subsystem (SyncStorage and
  KubernetesStorage engines) against its natural-language specification.

  The engines' own code (package genesis) is embedded shallowly below:
  stateful methods become pure functions from an explicit state to a new
  state plus the observable events they emit (fan-out channel pushes,
  database upserts/deletes, HTTP refresh requests).  Timestamps are Int
  seconds; the per-family data operations (whose implementations live
  outside the given sources) are modelled from the specification.
-/
import Mathlib

namespace Genesis

/-- Modelled from the spec: the common shape of a per-family resource
record.  Every family's record carries a natural key and a `last_seen`
timestamp; the family-specific payload is irrelevant to the engine-level
claims and is omitted.  Timestamps are integer seconds. -/
structure FamilyRecord where
  key : Nat
  lastSeen : Int
deriving DecidableEq, Repr

/-- Modelled from the spec: `Age(now, ttl)` of a per-family data operation
(the PlatformDataOperation implementations are not among the given
sources).  Removes every record with `now - last_seen > ttl` and returns
the kept records together with `true` iff at least one record was
removed. -/
def PlatformDataOperation.Age (now ttl : Int) (recs : List FamilyRecord) :
    List FamilyRecord × Bool :=
  let kept := recs.filter fun r => now - r.lastSeen ≤ ttl
  (kept, kept.length != recs.length)

/-- Modelled from the spec: `Renew(records, now)` of a per-family data
operation: for each incoming record, set `last_seen = now` on the stored
record with the same natural key if present; otherwise ignore the incoming
record (heartbeat without creation). -/
def PlatformDataOperation.Renew (incoming : List FamilyRecord) (now : Int)
    (cur : List FamilyRecord) : List FamilyRecord :=
  incoming.foldl
    (fun acc r =>
      acc.map fun x => if x.key == r.key then { x with lastSeen := now } else x)
    cur

/-- Modelled from the spec: one upsert step of a per-family `Update`:
replace the stored record with the same natural key, or append the record
when the key is new; either way `last_seen = now`. -/
def upsertRecord (cur : List FamilyRecord) (r : FamilyRecord) (now : Int) :
    List FamilyRecord :=
  if cur.any fun x => x.key == r.key then
    cur.map fun x => if x.key == r.key then { r with lastSeen := now } else x
  else
    cur ++ [{ r with lastSeen := now }]

/-- Modelled from the spec: `Update(records, now)` of a per-family data
operation: upsert the incoming records in argument order, last write
wins. -/
def PlatformDataOperation.Update (incoming : List FamilyRecord) (now : Int)
    (cur : List FamilyRecord) : List FamilyRecord :=
  incoming.foldl (fun acc r => upsertRecord acc r now) cur

/-- Modelled from the spec: `Fetch` returns a (defensively copied)
snapshot of the family's current records. -/
def PlatformDataOperation.Fetch (cur : List FamilyRecord) : List FamilyRecord :=
  cur

/-- The ten per-family operations held by a SyncStorage engine
(`genesisSyncInfo` field of `SyncStorage` in the source; in the source its
type is `GenesisSyncDataOperation` whose members are always initialized
once loaded). -/
structure GenesisSyncDataOperation where
  VIPs : List FamilyRecord
  VMs : List FamilyRecord
  VPCs : List FamilyRecord
  Hosts : List FamilyRecord
  Lldps : List FamilyRecord
  Ports : List FamilyRecord
  Networks : List FamilyRecord
  IPlastseens : List FamilyRecord
  Vinterfaces : List FamilyRecord
  Processes : List FamilyRecord
deriving DecidableEq, Repr

/-- The argument of `SyncStorage.Renew` / `SyncStorage.Update`: in the
source this is again `GenesisSyncDataOperation`, whose per-family
operation pointers may be nil (a family not reported this cycle); presence
is modelled with `Option`. -/
structure GenesisSyncDataRequest where
  VIPs : Option (List FamilyRecord)
  VMs : Option (List FamilyRecord)
  VPCs : Option (List FamilyRecord)
  Hosts : Option (List FamilyRecord)
  Lldps : Option (List FamilyRecord)
  Ports : Option (List FamilyRecord)
  Networks : Option (List FamilyRecord)
  IPlastseens : Option (List FamilyRecord)
  Vinterfaces : Option (List FamilyRecord)
  Processes : Option (List FamilyRecord)
deriving DecidableEq, Repr

/-- The snapshot type pushed on the SyncStorage fan-out channel
(`GenesisSyncData` in the source), field names and order as in
`SyncStorage.fetch`. -/
structure GenesisSyncData where
  VIPs : List FamilyRecord
  VMs : List FamilyRecord
  VPCs : List FamilyRecord
  Hosts : List FamilyRecord
  Ports : List FamilyRecord
  Lldps : List FamilyRecord
  IPLastSeens : List FamilyRecord
  Networks : List FamilyRecord
  Vinterfaces : List FamilyRecord
  Processes : List FamilyRecord
deriving DecidableEq, Repr

/-- The mutable state of a SyncStorage engine: the ten-family aggregate
and the dirty flag.  (cfg, context, channel and mutex are modelled as
function parameters and explicit event lists.) -/
structure SyncStorage where
  genesisSyncInfo : GenesisSyncDataOperation
  dirty : Bool
deriving DecidableEq, Repr

/-- The fields of `VIFRPCMessage` consumed by `SyncStorage.Update`. -/
structure VIFRPCMessage where
  orgID : Nat
  vtapID : Nat
deriving DecidableEq, Repr

/-- One upsert into the `genesis_storage` ownership table, as issued by
`SyncStorage.Update`: row `(vtap_id, node_ip)` in the `orgID` database,
with the recorded conflict-target column and on-conflict updated
column. -/
structure GenesisStorageUpsert where
  orgID : Nat
  vtapID : Nat
  nodeIP : String
  conflictColumn : String
  updatedColumn : String
deriving DecidableEq, Repr

/-- `SyncStorage.fetch`: build the snapshot of all ten families that is
sent on the fan-out channel. -/
def SyncStorage.fetch (s : SyncStorage) : GenesisSyncData :=
  { VIPs := PlatformDataOperation.Fetch s.genesisSyncInfo.VIPs
    VMs := PlatformDataOperation.Fetch s.genesisSyncInfo.VMs
    VPCs := PlatformDataOperation.Fetch s.genesisSyncInfo.VPCs
    Hosts := PlatformDataOperation.Fetch s.genesisSyncInfo.Hosts
    Ports := PlatformDataOperation.Fetch s.genesisSyncInfo.Ports
    Lldps := PlatformDataOperation.Fetch s.genesisSyncInfo.Lldps
    IPLastSeens := PlatformDataOperation.Fetch s.genesisSyncInfo.IPlastseens
    Networks := PlatformDataOperation.Fetch s.genesisSyncInfo.Networks
    Vinterfaces := PlatformDataOperation.Fetch s.genesisSyncInfo.Vinterfaces
    Processes := PlatformDataOperation.Fetch s.genesisSyncInfo.Processes }

/-- Apply one family's `Renew` when the family is present in the request,
mirroring the `if data.X != nil` guards of `SyncStorage.Renew`. -/
def applyRenew (arg : Option (List FamilyRecord)) (now : Int)
    (cur : List FamilyRecord) : List FamilyRecord :=
  match arg with
  | some recs => PlatformDataOperation.Renew recs now cur
  | none => cur

/-- Apply one family's `Update` when the family is present in the request,
mirroring the `if data.X != nil` guards of `SyncStorage.Update`. -/
def applyUpdate (arg : Option (List FamilyRecord)) (now : Int)
    (cur : List FamilyRecord) : List FamilyRecord :=
  match arg with
  | some recs => PlatformDataOperation.Update recs now cur
  | none => cur

/-- `SyncStorage.Renew`: forward each present family to that family's
`Renew` with the single `now` taken at entry.  The source body contains no
channel send, no database access and no write to `dirty`; accordingly the
event lists (channel pushes, `genesis_storage` upserts) are empty. -/
def SyncStorage.Renew (now : Int) (data : GenesisSyncDataRequest)
    (s : SyncStorage) :
    SyncStorage × List GenesisSyncData × List GenesisStorageUpsert :=
  ({ s with
      genesisSyncInfo :=
        { VIPs := applyRenew data.VIPs now s.genesisSyncInfo.VIPs
          VMs := applyRenew data.VMs now s.genesisSyncInfo.VMs
          VPCs := applyRenew data.VPCs now s.genesisSyncInfo.VPCs
          Hosts := applyRenew data.Hosts now s.genesisSyncInfo.Hosts
          Lldps := applyRenew data.Lldps now s.genesisSyncInfo.Lldps
          Ports := applyRenew data.Ports now s.genesisSyncInfo.Ports
          Networks := applyRenew data.Networks now s.genesisSyncInfo.Networks
          IPlastseens := applyRenew data.IPlastseens now s.genesisSyncInfo.IPlastseens
          Vinterfaces := applyRenew data.Vinterfaces now s.genesisSyncInfo.Vinterfaces
          Processes := applyRenew data.Processes now s.genesisSyncInfo.Processes } },
    [], [])

/-- Whether any family is present in the request; in the source each
non-nil family branch of `SyncStorage.Update` sets `updateFlag = true`, so
the final `updateFlag` equals this disjunction. -/
def GenesisSyncDataRequest.anyPresent (d : GenesisSyncDataRequest) : Bool :=
  d.VIPs.isSome || d.VMs.isSome || d.VPCs.isSome || d.Hosts.isSome ||
  d.Lldps.isSome || d.Ports.isSome || d.Networks.isSome ||
  d.IPlastseens.isSome || d.Vinterfaces.isSome || d.Processes.isSome

/-- `SyncStorage.Update`: apply each present family's `Update` with the
entry wall clock, then, when some family was present and
`info.vtapID != 0`, push one snapshot and upsert the ownership row —
unless obtaining the per-org DB session fails, in which case the method
returns early (skipping both the upsert and the trailing
`s.dirty = true`).  `getDB orgID` models whether `mysql.GetDB(orgID)`
succeeds; `nodeIP` models the `NODE_IP` environment variable.  Returns the
new state, the snapshots pushed and the `genesis_storage` upserts
issued. -/
def SyncStorage.Update (getDB : Nat → Bool) (nodeIP : String) (now : Int)
    (data : GenesisSyncDataRequest) (info : VIFRPCMessage) (s : SyncStorage) :
    SyncStorage × List GenesisSyncData × List GenesisStorageUpsert :=
  let s1 : SyncStorage :=
    { s with
        genesisSyncInfo :=
          { VIPs := applyUpdate data.VIPs now s.genesisSyncInfo.VIPs
            VMs := applyUpdate data.VMs now s.genesisSyncInfo.VMs
            VPCs := applyUpdate data.VPCs now s.genesisSyncInfo.VPCs
            Hosts := applyUpdate data.Hosts now s.genesisSyncInfo.Hosts
            Lldps := applyUpdate data.Lldps now s.genesisSyncInfo.Lldps
            Ports := applyUpdate data.Ports now s.genesisSyncInfo.Ports
            Networks := applyUpdate data.Networks now s.genesisSyncInfo.Networks
            IPlastseens := applyUpdate data.IPlastseens now s.genesisSyncInfo.IPlastseens
            Vinterfaces := applyUpdate data.Vinterfaces now s.genesisSyncInfo.Vinterfaces
            Processes := applyUpdate data.Processes now s.genesisSyncInfo.Processes } }
  if data.anyPresent && info.vtapID != 0 then
    let pushes := [SyncStorage.fetch s1]
    if getDB info.orgID then
      ({ s1 with dirty := true }, pushes,
        [{ orgID := info.orgID, vtapID := info.vtapID, nodeIP := nodeIP,
           conflictColumn := "vtap_id", updatedColumn := "node_ip" }])
    else
      (s1, pushes, [])
  else
    ({ s1 with dirty := true }, [], [])

/-- One `hasChange = hasChange || family.Age(now, ttl)` statement of
`SyncStorage.run`.  Go's `||` short-circuits: when `hasChange` is already
true the right operand is not evaluated, so `Age` is not invoked and the
family's records are left untouched. -/
def ageStep (hasChange : Bool) (now ttl : Int) (recs : List FamilyRecord) :
    Bool × List FamilyRecord :=
  if hasChange then (true, recs)
  else
    let r := PlatformDataOperation.Age now ttl recs
    (r.2, r.1)

/-- One iteration of the infinite for-loop body of `SyncStorage.run` (the
persistence loop): chain the nine `Age` calls through the short-circuiting
`||`, fold in and clear `dirty`, and if the result is true store to the
database and push one snapshot.  Returns the new state, the snapshots
pushed, and whether `storeToDatabase` was invoked. -/
def SyncStorage.runTick (agingTime vinterfaceAgingTime now : Int)
    (s : SyncStorage) : SyncStorage × List GenesisSyncData × Bool :=
  let a1 := ageStep false now agingTime s.genesisSyncInfo.VIPs
  let a2 := ageStep a1.1 now agingTime s.genesisSyncInfo.VMs
  let a3 := ageStep a2.1 now agingTime s.genesisSyncInfo.VPCs
  let a4 := ageStep a3.1 now agingTime s.genesisSyncInfo.Lldps
  let a5 := ageStep a4.1 now agingTime s.genesisSyncInfo.Ports
  let a6 := ageStep a5.1 now agingTime s.genesisSyncInfo.Networks
  let a7 := ageStep a6.1 now agingTime s.genesisSyncInfo.IPlastseens
  let a8 := ageStep a7.1 now agingTime s.genesisSyncInfo.Processes
  let a9 := ageStep a8.1 now vinterfaceAgingTime s.genesisSyncInfo.Vinterfaces
  let hasChange := a9.1 || s.dirty
  let s2 : SyncStorage :=
    { genesisSyncInfo :=
        { VIPs := a1.2, VMs := a2.2, VPCs := a3.2,
          Hosts := s.genesisSyncInfo.Hosts,
          Lldps := a4.2, Ports := a5.2, Networks := a6.2,
          IPlastseens := a7.2, Vinterfaces := a9.2, Processes := a8.2 },
      dirty := false }
  (s2, if hasChange then [SyncStorage.fetch s2] else [], hasChange)

/-- The fields of `KubernetesInfo` used by KubernetesStorage; `Entries`
payloads are opaque strings.  The struct itself is declared outside the
given sources; modelled from the spec's
`{ORGID, ClusterID, Version, Epoch, ErrorMSG, Entries[]}`. -/
structure KubernetesInfo where
  ClusterID : String
  Version : Nat
  Epoch : Int
  ErrorMSG : String
  Entries : List String
deriving DecidableEq, Repr

/-- The two-level `orgID → clusterID → KubernetesInfo` mapping
(`kubernetesData` field), modelled as nested association lists. -/
abbrev KubernetesData := List (Nat × List (String × KubernetesInfo))

/-- Association-list lookup (first binding wins), modelling Go map
indexing. -/
def lookupA {α β : Type} [DecidableEq α] : List (α × β) → α → Option β
  | [], _ => none
  | (k, v) :: t, k2 => if k = k2 then some v else lookupA t k2

/-- Association-list insertion (replace the first binding in place, else
append), modelling Go map assignment. -/
def insertA {α β : Type} [DecidableEq α] : List (α × β) → α → β → List (α × β)
  | [], k, v => [(k, v)]
  | (k2, v2) :: t, k, v =>
      if k2 = k then (k, v) :: t else (k2, v2) :: insertA t k v

/-- `KubernetesStorage.fetch`: send every stored record of every
organization and cluster on the fan-out channel; the returned list is the
sequence of channel sends. -/
def KubernetesStorage.fetch : KubernetesData → List KubernetesInfo
  | [] => []
  | (_, m) :: t => m.map Prod.snd ++ KubernetesStorage.fetch t

/-- Total number of stored `(orgID, clusterID)` entries across the whole
store. -/
def totalEntries : KubernetesData → Nat
  | [] => 0
  | (_, m) :: t => m.length + totalEntries t

/-- Result of `KubernetesStorage.Add`: the new store, the channel sends
performed by the `fetch` inside the lock, and whether
`triggerCloudRrefresh` was invoked afterwards (`!unTriggerFlag`). -/
structure KAddResult where
  store : KubernetesData
  messages : List KubernetesInfo
  triggered : Bool
deriving Repr

/-- `KubernetesStorage.Add`: when the organization's map and an entry for
`newInfo.ClusterID` exist and the entry's `Version` equals
`newInfo.Version`, only `Epoch` and `ErrorMSG` of the stored entry are
updated and `unTriggerFlag` is set; otherwise the entry (or the whole
organization map) is replaced/created wholesale.  Then `fetch` runs, and
the cloud refresh is triggered iff `unTriggerFlag` is not set. -/
def KubernetesStorage.Add (orgID : Nat) (newInfo : KubernetesInfo)
    (store : KubernetesData) : KAddResult :=
  let res : KubernetesData × Bool :=
    match lookupA store orgID with
    | some kubernetesData =>
      match lookupA kubernetesData newInfo.ClusterID with
      | some oldInfo =>
        if oldInfo.Version = newInfo.Version then
          (insertA store orgID
            (insertA kubernetesData newInfo.ClusterID
              { oldInfo with Epoch := newInfo.Epoch, ErrorMSG := newInfo.ErrorMSG }),
           true)
        else
          (insertA store orgID
            (insertA kubernetesData newInfo.ClusterID newInfo), false)
      | none =>
        (insertA store orgID
          (insertA kubernetesData newInfo.ClusterID newInfo), false)
    | none =>
      (insertA store orgID [(newInfo.ClusterID, newInfo)], false)
  { store := res.1,
    messages := KubernetesStorage.fetch res.1,
    triggered := !res.2 }

/-- One iteration of the infinite for-loop body of `KubernetesStorage.run`
(the aging loop): delete every entry with `now - Epoch > agingTime`
(`continue` keeps entries with `now - Epoch ≤ agingTime`), then `fetch`.
Returns the new store and the channel sends. -/
def KubernetesStorage.runTick (agingTime now : Int) (store : KubernetesData) :
    KubernetesData × List KubernetesInfo :=
  let store2 :=
    store.map fun p => (p.1, p.2.filter fun q => now - q.2.Epoch ≤ agingTime)
  (store2, KubernetesStorage.fetch store2)

/-- Modelled from the spec: the `common.KUBERNETES` domain-type constant;
its numeric value is not in the given sources and is irrelevant to the
claims. -/
def KUBERNETES : Nat := 23

/-- Modelled from the spec: the `common.CONTROLLER_STATE_EXCEPTION`
constant; its numeric value is not in the given sources and is irrelevant
to the claims. -/
def CONTROLLER_STATE_EXCEPTION : Nat := 4

/-- A `sub_domain` row as read by `triggerCloudRrefresh`. -/
structure SubDomain where
  Lcuuid : String
  Domain : String
  ClusterID : String
deriving DecidableEq, Repr

/-- A `domain` row as read by `triggerCloudRrefresh` (`typ` is the
source's `type` column). -/
structure Domain where
  Lcuuid : String
  ClusterID : String
  ControllerIP : String
  typ : Nat
deriving DecidableEq, Repr

/-- A `controller` row as read by `triggerCloudRrefresh`. -/
structure Controller where
  IP : String
  PodIP : String
  State : Nat
deriving DecidableEq, Repr

/-- Modelled from the spec: the relational tables read by
`triggerCloudRrefresh` through the per-organization DB session.  gorm's
`Find` becomes a filter and `First` the first matching row in table
order. -/
structure MockDB where
  subDomains : List SubDomain
  domains : List Domain
  controllers : List Controller
deriving DecidableEq, Repr

/-- The outgoing `/v1/kubernetes-refresh/` HTTP GET issued by
`triggerCloudRrefresh`: target host and port plus the three query-string
parameters. -/
structure KRefreshRequest where
  ip : String
  port : Nat
  domainLcuuid : String
  subDomainLcuuid : String
  version : Nat
deriving DecidableEq, Repr

/-- The HTTP requests an outcome of `triggerCloudRrefresh` issues: one on
success, none on error. -/
def httpRequests : Except String KRefreshRequest → List KRefreshRequest
  | Except.ok r => [r]
  | Except.error _ => []

/-- `KubernetesStorage.triggerCloudRrefresh` (name as in the source):
resolve the target controller from the `sub_domain`, `domain` and
`controller` tables of the `orgID` database and build the refresh GET
request, or fail. -/
def KubernetesStorage.triggerCloudRrefresh (listenPort listenNodePort : Nat)
    (db : MockDB) (clusterID : String) (version : Nat) :
    Except String KRefreshRequest :=
  let subDomains := db.subDomains.filter fun sd => sd.ClusterID == clusterID
  let resolved : Except String (String × String × String) :=
    match subDomains with
    | [] =>
      match db.domains.find? fun d => d.ClusterID == clusterID && d.typ == KUBERNETES with
      | none => Except.error "record not found"
      | some domain => Except.ok (domain.ControllerIP, domain.Lcuuid, domain.Lcuuid)
    | [sd] =>
      match db.domains.find? fun d => d.Lcuuid == sd.Domain && d.typ == KUBERNETES with
      | none => Except.error "record not found"
      | some domain => Except.ok (domain.ControllerIP, domain.Lcuuid, sd.Lcuuid)
    | _ =>
      Except.error ("cluster_id (" ++ clusterID ++ ") is not unique in mysql table sub_domain")
  match resolved with
  | Except.error e => Except.error e
  | Except.ok (controllerIP, domainLcuuid, subDomainLcuuid) =>
    match db.controllers.find? fun c =>
        c.IP == controllerIP && c.State != CONTROLLER_STATE_EXCEPTION with
    | none => Except.error "record not found"
    | some controller =>
      if controller.PodIP != "" then
        Except.ok { ip := controller.PodIP, port := listenPort,
                    domainLcuuid := domainLcuuid,
                    subDomainLcuuid := subDomainLcuuid, version := version }
      else
        Except.ok { ip := controllerIP, port := listenNodePort,
                    domainLcuuid := domainLcuuid,
                    subDomainLcuuid := subDomainLcuuid, version := version }

/-- A `genesis_storage` ownership row. -/
structure GenesisStorageRow where
  VtapID : Nat
  NodeIP : String
deriving DecidableEq, Repr

/-- The per-organization data read by one reconciler iteration: the ids of
all `vtap` rows, the `genesis_storage` rows, and whether the delete
statement would succeed. -/
structure OrgSession where
  vtaps : List Nat
  storages : List GenesisStorageRow
  deleteOK : Bool
deriving DecidableEq, Repr

/-- The database environment of one `refreshDatabase` tick: the result of
`mysql.GetORGIDs()` and of `mysql.GetDB(orgID)` per organization. -/
structure ReconEnv where
  orgIDsRes : Except String (List Nat)
  getDB : Nat → Except String OrgSession

/-- The invalid `genesis_storage` rows of one organization: rows with
`node_ip = nodeIP` whose `vtap_id` is not among the `vtap` ids. -/
def invalidStorages (nodeIP : String) (db : OrgSession) :
    List GenesisStorageRow :=
  (db.storages.filter fun r => r.NodeIP == nodeIP).filter
    fun r => !(db.vtaps.contains r.VtapID)

/-- One delete statement attempted by the reconciler: the organization,
the rows passed to `db.Delete`, and whether it succeeded (on failure the
error is logged and the loop moves on). -/
structure DeleteAttempt where
  orgID : Nat
  rows : List GenesisStorageRow
  ok : Bool
deriving DecidableEq, Repr

/-- One iteration of the ticker loop body of `SyncStorage.refreshDatabase`
(the ownership reconciler).  When `GetORGIDs` fails the source logs and
`return`s, ending the goroutine: the returned Bool (whether the loop
continues to the next tick) is false and `dirty` is not set.  Otherwise
each organization is handled independently: a `GetDB` failure `continue`s
to the next organization; a non-empty invalid set leads to one delete
attempt whose failure is only logged; finally `dirty` is set. -/
def SyncStorage.refreshDatabaseTick (nodeIP : String) (env : ReconEnv)
    (s : SyncStorage) : SyncStorage × Bool × List DeleteAttempt :=
  match env.orgIDsRes with
  | Except.error _ => (s, false, [])
  | Except.ok orgIDs =>
    let attempts := orgIDs.filterMap fun orgID =>
      match env.getDB orgID with
      | Except.error _ => none
      | Except.ok db =>
        let inv := invalidStorages nodeIP db
        if 0 < inv.length then
          some { orgID := orgID, rows := inv, ok := db.deleteOK }
        else none
    ({ s with dirty := true }, true, attempts)

/-- The cancellation scope (`vCtx`/`kCtx`) derived from the parent context
at engine construction. -/
structure CancelScope where
  cancelled : Bool
deriving DecidableEq, Repr

/-- `SyncStorage.Stop`: calls `vCancel`, cancelling the engine's scope. -/
def SyncStorage.Stop (_c : CancelScope) : CancelScope :=
  { cancelled := true }

/-- The loop guard of `SyncStorage.run`: the source loop is `for { ... }`,
an unconditional infinite loop that never reads the cancellation scope. -/
def SyncStorage.runLoopContinues (_c : CancelScope) : Bool :=
  true

/-- The loop guard of `SyncStorage.refreshDatabase`: the loop is
`for range ticker.C`, left only by the `return` taken when `GetORGIDs`
fails; it never reads the cancellation scope. -/
def SyncStorage.refreshDatabaseLoopContinues (_c : CancelScope)
    (orgIDsOk : Bool) : Bool :=
  orgIDsOk

/-- `KubernetesStorage.Stop`: calls `kCancel`, cancelling the engine's
scope. -/
def KubernetesStorage.Stop (_c : CancelScope) : CancelScope :=
  { cancelled := true }

/-- The loop guard of `KubernetesStorage.run`: the source loop is
`for { ... }`, an unconditional infinite loop that never reads the
cancellation scope. -/
def KubernetesStorage.runLoopContinues (_c : CancelScope) : Bool :=
  true

/-- No record of `recs` is stale: every `last_seen` is within `ttl` of
`now`. -/
def staleFree (now ttl : Int) (recs : List FamilyRecord) : Prop :=
  ∀ r ∈ recs, now - r.lastSeen ≤ ttl

/-- Whether `Age(now, ttl)` would remove at least one record of `recs`
(the boolean a family's `Age` call returns). -/
def agedOut (now ttl : Int) (recs : List FamilyRecord) : Bool :=
  (PlatformDataOperation.Age now ttl recs).2

theorem ageStep_fst (hasChange : Bool) (now ttl : Int)
    (recs : List FamilyRecord) :
    (ageStep hasChange now ttl recs).1 = (hasChange || agedOut now ttl recs) := by
  cases hasChange <;> simp [ageStep, agedOut]

theorem ageStep_snd (hasChange : Bool) (now ttl : Int)
    (recs : List FamilyRecord) :
    (ageStep hasChange now ttl recs).2 =
      if hasChange then recs else (PlatformDataOperation.Age now ttl recs).1 := by
  cases hasChange <;> simp [ageStep]

theorem Age_staleFree (now ttl : Int) (recs : List FamilyRecord) :
    staleFree now ttl (PlatformDataOperation.Age now ttl recs).1 := by
  intro r hr
  simp only [PlatformDataOperation.Age, List.mem_filter, decide_eq_true_eq] at hr
  exact hr.2

theorem kfetch_length (store : KubernetesData) :
    (KubernetesStorage.fetch store).length = totalEntries store := by
  induction store with
  | nil => rfl
  | cons p t ih =>
    simp [KubernetesStorage.fetch, totalEntries, ih]

theorem lookupA_insertA_self {α β : Type} [DecidableEq α]
    (l : List (α × β)) (k : α) (v : β) :
    lookupA (insertA l k v) k = some v := by
  induction l with
  | nil => simp [insertA, lookupA]
  | cons p t ih =>
    obtain ⟨p1, p2⟩ := p
    by_cases h : p1 = k
    · simp [insertA, h, lookupA]
    · simp [insertA, h, lookupA, ih]

theorem lookupA_insertA_ne {α β : Type} [DecidableEq α]
    (l : List (α × β)) (k k2 : α) (v : β) (h : k2 ≠ k) :
    lookupA (insertA l k v) k2 = lookupA l k2 := by
  induction l with
  | nil => simp [insertA, lookupA, Ne.symm h]
  | cons p t ih =>
    obtain ⟨p1, p2⟩ := p
    by_cases hp : p1 = k
    · subst hp
      simp [insertA, lookupA, Ne.symm h]
    · simp only [insertA, hp, if_false]
      by_cases hp2 : p1 = k2
      · simp [lookupA, hp2]
      · simp [lookupA, hp2, ih]

/-- Claim C4: after `Stop` is called on an engine, every background loop
of that engine observes the cancellation at its next sleep boundary and
exits within one interval, never executing a further tick.  This FAILS on
the code: none of `SyncStorage.run`, `SyncStorage.refreshDatabase` or
`KubernetesStorage.run` ever reads the cancellation scope, so after `Stop`
has cancelled the scope each loop guard is exactly what it was before —
the persistence and aging loops continue unconditionally, and the
reconciler's continuation depends only on `GetORGIDs` succeeding. -/
theorem C4_loops_ignore_stop (c : CancelScope) (orgIDsOk : Bool) :
    SyncStorage.runLoopContinues (SyncStorage.Stop c) = true
    ∧ KubernetesStorage.runLoopContinues (KubernetesStorage.Stop c) = true
    ∧ SyncStorage.refreshDatabaseLoopContinues (SyncStorage.Stop c) orgIDsOk
        = orgIDsOk
    ∧ (SyncStorage.Stop c).cancelled = true
    ∧ (KubernetesStorage.Stop c).cancelled = true :=
  ⟨rfl, rfl, rfl, rfl, rfl⟩

/-- Claim C7: `SyncStorage.Renew` leaves the dirty flag unchanged, sends
nothing on the fan-out channel, performs no database write, and only
forwards each present family to that family's `Renew` with the single
`now` taken at entry. -/
theorem C7_renew_frame (now : Int) (data : GenesisSyncDataRequest)
    (s : SyncStorage) :
    (SyncStorage.Renew now data s).1.dirty = s.dirty
    ∧ (SyncStorage.Renew now data s).2.1 = []
    ∧ (SyncStorage.Renew now data s).2.2 = []
    ∧ (SyncStorage.Renew now data s).1.genesisSyncInfo.VIPs
        = applyRenew data.VIPs now s.genesisSyncInfo.VIPs
    ∧ (SyncStorage.Renew now data s).1.genesisSyncInfo.VMs
        = applyRenew data.VMs now s.genesisSyncInfo.VMs
    ∧ (SyncStorage.Renew now data s).1.genesisSyncInfo.VPCs
        = applyRenew data.VPCs now s.genesisSyncInfo.VPCs
    ∧ (SyncStorage.Renew now data s).1.genesisSyncInfo.Hosts
        = applyRenew data.Hosts now s.genesisSyncInfo.Hosts
    ∧ (SyncStorage.Renew now data s).1.genesisSyncInfo.Lldps
        = applyRenew data.Lldps now s.genesisSyncInfo.Lldps
    ∧ (SyncStorage.Renew now data s).1.genesisSyncInfo.Ports
        = applyRenew data.Ports now s.genesisSyncInfo.Ports
    ∧ (SyncStorage.Renew now data s).1.genesisSyncInfo.Networks
        = applyRenew data.Networks now s.genesisSyncInfo.Networks
    ∧ (SyncStorage.Renew now data s).1.genesisSyncInfo.IPlastseens
        = applyRenew data.IPlastseens now s.genesisSyncInfo.IPlastseens
    ∧ (SyncStorage.Renew now data s).1.genesisSyncInfo.Vinterfaces
        = applyRenew data.Vinterfaces now s.genesisSyncInfo.Vinterfaces
    ∧ (SyncStorage.Renew now data s).1.genesisSyncInfo.Processes
        = applyRenew data.Processes now s.genesisSyncInfo.Processes :=
  ⟨rfl, rfl, rfl, rfl, rfl, rfl, rfl, rfl, rfl, rfl, rfl, rfl, rfl⟩

/-- Claim C10: every `KubernetesStorage.Add` call and every aging-loop
tick re-broadcasts the entire store on the fan-out channel — the number of
channel sends equals the total number of stored `(orgID, clusterID)`
entries after the mutation. -/
theorem C10_full_rebroadcast (orgID : Nat) (info : KubernetesInfo)
    (store : KubernetesData) (agingTime now : Int) :
    (KubernetesStorage.Add orgID info store).messages.length
        = totalEntries (KubernetesStorage.Add orgID info store).store
    ∧ (KubernetesStorage.runTick agingTime now store).2.length
        = totalEntries (KubernetesStorage.runTick agingTime now store).1 := by
  constructor
  · simp only [KubernetesStorage.Add]
    exact kfetch_length _
  · simp only [KubernetesStorage.runTick]
    exact kfetch_length _

/-- A SyncStorage state with all ten families empty and `dirty = false`. -/
def sEmpty : SyncStorage :=
  { genesisSyncInfo :=
      { VIPs := [], VMs := [], VPCs := [], Hosts := [], Lldps := [],
        Ports := [], Networks := [], IPlastseens := [], Vinterfaces := [],
        Processes := [] },
    dirty := false }

/-- A request in which no family is present. -/
def emptyData : GenesisSyncDataRequest :=
  { VIPs := none, VMs := none, VPCs := none, Hosts := none, Lldps := none,
    Ports := none, Networks := none, IPlastseens := none,
    Vinterfaces := none, Processes := none }

/-- A request carrying exactly one family (one VM record). -/
def oneVMData : GenesisSyncDataRequest :=
  { emptyData with VMs := some [⟨1, 0⟩] }

/-- Claim C2 as stated is FALSE on the code: calling `SyncStorage.Update`
with data in which no family is present still sets the dirty flag — the
source's `s.dirty = true` sits after (outside) the `if updateFlag` block.
Concretely, from a state with `dirty = false`, an Update carrying no
family leaves `dirty = true`, not unchanged. -/
theorem C2_counterexample :
    emptyData.anyPresent = false
    ∧ sEmpty.dirty = false
    ∧ (SyncStorage.Update (fun _ => true) "10.0.0.1" 0 emptyData ⟨1, 0⟩
        sEmpty).1.dirty = true := by
  refine ⟨by decide, rfl, by decide⟩

/-- Claim C2 amended: `SyncStorage.Update` sets the dirty flag to true on
every call, whether or not any family is present in the data; the only
exception is the early-return path in which at least one family is
present, `info.vtapID ≠ 0` and obtaining the per-org DB session fails,
where Update returns before the trailing `s.dirty = true` and the flag is
left unchanged. -/
theorem C2_dirty_set_unconditionally (getDB : Nat → Bool) (nodeIP : String)
    (now : Int) (data : GenesisSyncDataRequest) (info : VIFRPCMessage)
    (s : SyncStorage) :
    (SyncStorage.Update getDB nodeIP now data info s).1.dirty =
      if (data.anyPresent && info.vtapID != 0) && !(getDB info.orgID) then
        s.dirty
      else true := by
  by_cases h : (data.anyPresent && info.vtapID != 0) = true
  · by_cases hdb : getDB info.orgID = true
    · simp [SyncStorage.Update, h, hdb]
    · simp only [Bool.not_eq_true] at hdb
      simp [SyncStorage.Update, h, hdb]
  · simp only [Bool.not_eq_true] at h
    simp [SyncStorage.Update, h]

/-- Claim C3: an `Add(orgID, info)` whose `ClusterID` and `Version` match
the stored entry updates only that entry's `Epoch` and `ErrorMSG`,
preserves its `Entries` and `Version` (and every other organization and
cluster), and does not invoke the cloud refresh trigger. -/
theorem C3_add_unchanged_version (store : KubernetesData) (orgID : Nat)
    (newInfo oldInfo : KubernetesInfo) (m : List (String × KubernetesInfo))
    (hm : lookupA store orgID = some m)
    (hold : lookupA m newInfo.ClusterID = some oldInfo)
    (hver : oldInfo.Version = newInfo.Version) :
    (KubernetesStorage.Add orgID newInfo store).triggered = false
    ∧ (KubernetesStorage.Add orgID newInfo store).store
        = insertA store orgID (insertA m newInfo.ClusterID
            { oldInfo with Epoch := newInfo.Epoch, ErrorMSG := newInfo.ErrorMSG })
    ∧ lookupA (KubernetesStorage.Add orgID newInfo store).store orgID
        = some (insertA m newInfo.ClusterID
            { oldInfo with Epoch := newInfo.Epoch, ErrorMSG := newInfo.ErrorMSG })
    ∧ lookupA (insertA m newInfo.ClusterID
          { oldInfo with Epoch := newInfo.Epoch, ErrorMSG := newInfo.ErrorMSG })
        newInfo.ClusterID
        = some { oldInfo with Epoch := newInfo.Epoch, ErrorMSG := newInfo.ErrorMSG }
    ∧ ({ oldInfo with Epoch := newInfo.Epoch, ErrorMSG := newInfo.ErrorMSG } : KubernetesInfo).Entries
        = oldInfo.Entries
    ∧ ({ oldInfo with Epoch := newInfo.Epoch, ErrorMSG := newInfo.ErrorMSG } : KubernetesInfo).Version
        = oldInfo.Version
    ∧ (∀ org2, org2 ≠ orgID →
        lookupA (KubernetesStorage.Add orgID newInfo store).store org2
          = lookupA store org2)
    ∧ (∀ c, c ≠ newInfo.ClusterID →
        lookupA (insertA m newInfo.ClusterID
            { oldInfo with Epoch := newInfo.Epoch, ErrorMSG := newInfo.ErrorMSG }) c
          = lookupA m c) := by
  have hstore : (KubernetesStorage.Add orgID newInfo store).store
      = insertA store orgID (insertA m newInfo.ClusterID
          { oldInfo with Epoch := newInfo.Epoch, ErrorMSG := newInfo.ErrorMSG }) := by
    simp [KubernetesStorage.Add, hm, hold, hver]
  have htrig : (KubernetesStorage.Add orgID newInfo store).triggered = false := by
    simp [KubernetesStorage.Add, hm, hold, hver]
  refine ⟨htrig, hstore, ?_, lookupA_insertA_self .., rfl, rfl, ?_, ?_⟩
  · rw [hstore]
    exact lookupA_insertA_self ..
  · intro org2 h2
    rw [hstore]
    exact lookupA_insertA_ne _ _ _ _ h2
  · intro c hc
    exact lookupA_insertA_ne _ _ _ _ hc

/-- The stored Kubernetes record before the second report. -/
def kOld : KubernetesInfo :=
  { ClusterID := "c1", Version := 5, Epoch := 100, ErrorMSG := "",
    Entries := ["e1"] }

/-- A second report for the same cluster with the same version but new
epoch, error message and entries. -/
def kNew : KubernetesInfo :=
  { ClusterID := "c1", Version := 5, Epoch := 200, ErrorMSG := "x",
    Entries := ["e2"] }

/-- A store holding `kOld` for organization 1. -/
def kStore0 : KubernetesData := [(1, [("c1", kOld)])]

/-- Concrete instance of C3: same-version Add triggers no refresh and the
re-read entry keeps the old `Entries` and `Version` with the new `Epoch`
and `ErrorMSG`. -/
theorem C3_witness :
    (KubernetesStorage.Add 1 kNew kStore0).triggered = false
    ∧ lookupA (insertA [("c1", kOld)] kNew.ClusterID
          { kOld with Epoch := kNew.Epoch, ErrorMSG := kNew.ErrorMSG })
        kNew.ClusterID
        = some { kOld with Epoch := kNew.Epoch, ErrorMSG := kNew.ErrorMSG } :=
  ⟨(C3_add_unchanged_version kStore0 1 kNew kOld [("c1", kOld)]
      (by decide) (by decide) rfl).1,
   (C3_add_unchanged_version kStore0 1 kNew kOld [("c1", kOld)]
      (by decide) (by decide) rfl).2.2.2.1⟩

/-- Claim C8: when at least one family is present and `info.vtapID ≠ 0`
and the per-org DB session is obtained, `SyncStorage.Update` pushes
exactly one snapshot (of all ten families, equal to `fetch` of the
post-update state) and issues exactly one upsert of
`(vtap_id = info.vtapID, node_ip = nodeIP)` into `genesis_storage` in the
`orgID` database with conflict target `vtap_id` updating `node_ip`; when
no family is present or `vtapID = 0`, neither the push nor the upsert
happens. -/
theorem C8_update_push_and_upsert (getDB : Nat → Bool) (nodeIP : String)
    (now : Int) (data : GenesisSyncDataRequest) (info : VIFRPCMessage)
    (s : SyncStorage) :
    (data.anyPresent = true → info.vtapID ≠ 0 → getDB info.orgID = true →
      (SyncStorage.Update getDB nodeIP now data info s).2.1
          = [SyncStorage.fetch (SyncStorage.Update getDB nodeIP now data info s).1]
      ∧ (SyncStorage.Update getDB nodeIP now data info s).2.2
          = [{ orgID := info.orgID, vtapID := info.vtapID, nodeIP := nodeIP,
               conflictColumn := "vtap_id", updatedColumn := "node_ip" }])
    ∧ ((data.anyPresent = false ∨ info.vtapID = 0) →
      (SyncStorage.Update getDB nodeIP now data info s).2.1 = []
      ∧ (SyncStorage.Update getDB nodeIP now data info s).2.2 = []) := by
  constructor
  · intro h1 h2 h3
    constructor
    · simp [SyncStorage.Update, SyncStorage.fetch, h1, h2, h3]
    · simp [SyncStorage.Update, h1, h2, h3]
  · intro h
    rcases h with h | h
    · constructor <;> simp [SyncStorage.Update, h]
    · constructor <;> simp [SyncStorage.Update, h]

/-- Concrete instance of C8: with one VM family present, vtapID 7 and a
working DB the upsert row is issued; with no family present nothing is
pushed. -/
theorem C8_witness :
    (SyncStorage.Update (fun _ => true) "10.0.0.1" 5 oneVMData ⟨3, 7⟩
        sEmpty).2.2
      = [{ orgID := 3, vtapID := 7, nodeIP := "10.0.0.1",
           conflictColumn := "vtap_id", updatedColumn := "node_ip" }]
    ∧ (SyncStorage.Update (fun _ => true) "10.0.0.1" 5 emptyData ⟨3, 7⟩
        sEmpty).2.1 = [] :=
  ⟨((C8_update_push_and_upsert (fun _ => true) "10.0.0.1" 5 oneVMData ⟨3, 7⟩
      sEmpty).1 (by decide) (by decide) rfl).2,
   ((C8_update_push_and_upsert (fun _ => true) "10.0.0.1" 5 emptyData ⟨3, 7⟩
      sEmpty).2 (Or.inl (by decide))).1⟩

/-- A state whose VIPs and VMs families each hold one record last seen at
time 0 (stale at `now = 100` for any TTL below 100), `dirty = false`. -/
def sCtr1 : SyncStorage :=
  { genesisSyncInfo :=
      { VIPs := [⟨0, 0⟩], VMs := [⟨1, 0⟩], VPCs := [], Hosts := [],
        Lldps := [], Ports := [], Networks := [], IPlastseens := [],
        Vinterfaces := [], Processes := [] },
    dirty := false }

/-- Claim C1 as stated is FALSE on the code: on a tick at `now = 100` with
TTL 10, aging the VIPs family removes its stale record and reports a
change, and Go's short-circuiting `||` in
`hasChange = hasChange || VMs.Age(...)` then skips the VMs `Age` call
entirely — after the tick the VMs family still holds a record with
`now - last_seen = 100 > 10`. -/
theorem C1_counterexample :
    (SyncStorage.runTick 10 10 100 sCtr1).1.genesisSyncInfo.VIPs = []
    ∧ (SyncStorage.runTick 10 10 100 sCtr1).1.genesisSyncInfo.VMs = [⟨1, 0⟩]
    ∧ ¬ (∀ r ∈ (SyncStorage.runTick 10 10 100 sCtr1).1.genesisSyncInfo.VMs,
          (100 : Int) - r.lastSeen ≤ 10) := by
  refine ⟨by decide, by decide, by decide⟩

/-- Claim C1 amended: on each persistence tick the nine `Age` calls are
chained through Go's short-circuiting `||`, so a family is aged exactly
when no earlier family in the order VIPs, VMs, VPCs, LLDPs, Ports,
Networks, IP-last-seens, Processes, Vinterfaces reported a change on this
tick: VIPs is always fully aged (no stale record remains), and each later
family is fully aged when every earlier family's `Age` reported no
removal, but is left completely untouched — stale records included — as
soon as some earlier family reported one.  Vinterfaces uses its own TTL,
the others the common `agingTime`. -/
theorem C1_age_short_circuit (agingTime vifAging now : Int) (s : SyncStorage) :
    staleFree now agingTime
      (SyncStorage.runTick agingTime vifAging now s).1.genesisSyncInfo.VIPs
    ∧ (agedOut now agingTime s.genesisSyncInfo.VIPs = false →
        staleFree now agingTime
          (SyncStorage.runTick agingTime vifAging now s).1.genesisSyncInfo.VMs)
    ∧ (agedOut now agingTime s.genesisSyncInfo.VIPs = true →
        (SyncStorage.runTick agingTime vifAging now s).1.genesisSyncInfo.VMs
          = s.genesisSyncInfo.VMs)
    ∧ ((agedOut now agingTime s.genesisSyncInfo.VIPs
        || agedOut now agingTime s.genesisSyncInfo.VMs) = false →
        staleFree now agingTime
          (SyncStorage.runTick agingTime vifAging now s).1.genesisSyncInfo.VPCs)
    ∧ ((agedOut now agingTime s.genesisSyncInfo.VIPs
        || agedOut now agingTime s.genesisSyncInfo.VMs) = true →
        (SyncStorage.runTick agingTime vifAging now s).1.genesisSyncInfo.VPCs
          = s.genesisSyncInfo.VPCs)
    ∧ ((agedOut now agingTime s.genesisSyncInfo.VIPs
        || agedOut now agingTime s.genesisSyncInfo.VMs
        || agedOut now agingTime s.genesisSyncInfo.VPCs) = false →
        staleFree now agingTime
          (SyncStorage.runTick agingTime vifAging now s).1.genesisSyncInfo.Lldps)
    ∧ ((agedOut now agingTime s.genesisSyncInfo.VIPs
        || agedOut now agingTime s.genesisSyncInfo.VMs
        || agedOut now agingTime s.genesisSyncInfo.VPCs) = true →
        (SyncStorage.runTick agingTime vifAging now s).1.genesisSyncInfo.Lldps
          = s.genesisSyncInfo.Lldps)
    ∧ ((agedOut now agingTime s.genesisSyncInfo.VIPs
        || agedOut now agingTime s.genesisSyncInfo.VMs
        || agedOut now agingTime s.genesisSyncInfo.VPCs
        || agedOut now agingTime s.genesisSyncInfo.Lldps) = false →
        staleFree now agingTime
          (SyncStorage.runTick agingTime vifAging now s).1.genesisSyncInfo.Ports)
    ∧ ((agedOut now agingTime s.genesisSyncInfo.VIPs
        || agedOut now agingTime s.genesisSyncInfo.VMs
        || agedOut now agingTime s.genesisSyncInfo.VPCs
        || agedOut now agingTime s.genesisSyncInfo.Lldps) = true →
        (SyncStorage.runTick agingTime vifAging now s).1.genesisSyncInfo.Ports
          = s.genesisSyncInfo.Ports)
    ∧ ((agedOut now agingTime s.genesisSyncInfo.VIPs
        || agedOut now agingTime s.genesisSyncInfo.VMs
        || agedOut now agingTime s.genesisSyncInfo.VPCs
        || agedOut now agingTime s.genesisSyncInfo.Lldps
        || agedOut now agingTime s.genesisSyncInfo.Ports) = false →
        staleFree now agingTime
          (SyncStorage.runTick agingTime vifAging now s).1.genesisSyncInfo.Networks)
    ∧ ((agedOut now agingTime s.genesisSyncInfo.VIPs
        || agedOut now agingTime s.genesisSyncInfo.VMs
        || agedOut now agingTime s.genesisSyncInfo.VPCs
        || agedOut now agingTime s.genesisSyncInfo.Lldps
        || agedOut now agingTime s.genesisSyncInfo.Ports) = true →
        (SyncStorage.runTick agingTime vifAging now s).1.genesisSyncInfo.Networks
          = s.genesisSyncInfo.Networks)
    ∧ ((agedOut now agingTime s.genesisSyncInfo.VIPs
        || agedOut now agingTime s.genesisSyncInfo.VMs
        || agedOut now agingTime s.genesisSyncInfo.VPCs
        || agedOut now agingTime s.genesisSyncInfo.Lldps
        || agedOut now agingTime s.genesisSyncInfo.Ports
        || agedOut now agingTime s.genesisSyncInfo.Networks) = false →
        staleFree now agingTime
          (SyncStorage.runTick agingTime vifAging now s).1.genesisSyncInfo.IPlastseens)
    ∧ ((agedOut now agingTime s.genesisSyncInfo.VIPs
        || agedOut now agingTime s.genesisSyncInfo.VMs
        || agedOut now agingTime s.genesisSyncInfo.VPCs
        || agedOut now agingTime s.genesisSyncInfo.Lldps
        || agedOut now agingTime s.genesisSyncInfo.Ports
        || agedOut now agingTime s.genesisSyncInfo.Networks) = true →
        (SyncStorage.runTick agingTime vifAging now s).1.genesisSyncInfo.IPlastseens
          = s.genesisSyncInfo.IPlastseens)
    ∧ ((agedOut now agingTime s.genesisSyncInfo.VIPs
        || agedOut now agingTime s.genesisSyncInfo.VMs
        || agedOut now agingTime s.genesisSyncInfo.VPCs
        || agedOut now agingTime s.genesisSyncInfo.Lldps
        || agedOut now agingTime s.genesisSyncInfo.Ports
        || agedOut now agingTime s.genesisSyncInfo.Networks
        || agedOut now agingTime s.genesisSyncInfo.IPlastseens) = false →
        staleFree now agingTime
          (SyncStorage.runTick agingTime vifAging now s).1.genesisSyncInfo.Processes)
    ∧ ((agedOut now agingTime s.genesisSyncInfo.VIPs
        || agedOut now agingTime s.genesisSyncInfo.VMs
        || agedOut now agingTime s.genesisSyncInfo.VPCs
        || agedOut now agingTime s.genesisSyncInfo.Lldps
        || agedOut now agingTime s.genesisSyncInfo.Ports
        || agedOut now agingTime s.genesisSyncInfo.Networks
        || agedOut now agingTime s.genesisSyncInfo.IPlastseens) = true →
        (SyncStorage.runTick agingTime vifAging now s).1.genesisSyncInfo.Processes
          = s.genesisSyncInfo.Processes)
    ∧ ((agedOut now agingTime s.genesisSyncInfo.VIPs
        || agedOut now agingTime s.genesisSyncInfo.VMs
        || agedOut now agingTime s.genesisSyncInfo.VPCs
        || agedOut now agingTime s.genesisSyncInfo.Lldps
        || agedOut now agingTime s.genesisSyncInfo.Ports
        || agedOut now agingTime s.genesisSyncInfo.Networks
        || agedOut now agingTime s.genesisSyncInfo.IPlastseens
        || agedOut now agingTime s.genesisSyncInfo.Processes) = false →
        staleFree now vifAging
          (SyncStorage.runTick agingTime vifAging now s).1.genesisSyncInfo.Vinterfaces)
    ∧ ((agedOut now agingTime s.genesisSyncInfo.VIPs
        || agedOut now agingTime s.genesisSyncInfo.VMs
        || agedOut now agingTime s.genesisSyncInfo.VPCs
        || agedOut now agingTime s.genesisSyncInfo.Lldps
        || agedOut now agingTime s.genesisSyncInfo.Ports
        || agedOut now agingTime s.genesisSyncInfo.Networks
        || agedOut now agingTime s.genesisSyncInfo.IPlastseens
        || agedOut now agingTime s.genesisSyncInfo.Processes) = true →
        (SyncStorage.runTick agingTime vifAging now s).1.genesisSyncInfo.Vinterfaces
          = s.genesisSyncInfo.Vinterfaces) := by
  have e1 : (SyncStorage.runTick agingTime vifAging now s).1.genesisSyncInfo.VIPs
      = (PlatformDataOperation.Age now agingTime s.genesisSyncInfo.VIPs).1 := by
    simp [SyncStorage.runTick, ageStep]
  have e2 : (SyncStorage.runTick agingTime vifAging now s).1.genesisSyncInfo.VMs
      = if agedOut now agingTime s.genesisSyncInfo.VIPs then s.genesisSyncInfo.VMs
        else (PlatformDataOperation.Age now agingTime s.genesisSyncInfo.VMs).1 := by
    simp [SyncStorage.runTick, ageStep_fst, ageStep_snd, Bool.or_assoc]
  have e3 : (SyncStorage.runTick agingTime vifAging now s).1.genesisSyncInfo.VPCs
      = if (agedOut now agingTime s.genesisSyncInfo.VIPs
            || agedOut now agingTime s.genesisSyncInfo.VMs) then
          s.genesisSyncInfo.VPCs
        else (PlatformDataOperation.Age now agingTime s.genesisSyncInfo.VPCs).1 := by
    simp [SyncStorage.runTick, ageStep_fst, ageStep_snd, Bool.or_assoc]
  have e4 : (SyncStorage.runTick agingTime vifAging now s).1.genesisSyncInfo.Lldps
      = if (agedOut now agingTime s.genesisSyncInfo.VIPs
            || agedOut now agingTime s.genesisSyncInfo.VMs
            || agedOut now agingTime s.genesisSyncInfo.VPCs) then
          s.genesisSyncInfo.Lldps
        else (PlatformDataOperation.Age now agingTime s.genesisSyncInfo.Lldps).1 := by
    simp [SyncStorage.runTick, ageStep_fst, ageStep_snd, Bool.or_assoc]
  have e5 : (SyncStorage.runTick agingTime vifAging now s).1.genesisSyncInfo.Ports
      = if (agedOut now agingTime s.genesisSyncInfo.VIPs
            || agedOut now agingTime s.genesisSyncInfo.VMs
            || agedOut now agingTime s.genesisSyncInfo.VPCs
            || agedOut now agingTime s.genesisSyncInfo.Lldps) then
          s.genesisSyncInfo.Ports
        else (PlatformDataOperation.Age now agingTime s.genesisSyncInfo.Ports).1 := by
    simp [SyncStorage.runTick, ageStep_fst, ageStep_snd, Bool.or_assoc]
  have e6 : (SyncStorage.runTick agingTime vifAging now s).1.genesisSyncInfo.Networks
      = if (agedOut now agingTime s.genesisSyncInfo.VIPs
            || agedOut now agingTime s.genesisSyncInfo.VMs
            || agedOut now agingTime s.genesisSyncInfo.VPCs
            || agedOut now agingTime s.genesisSyncInfo.Lldps
            || agedOut now agingTime s.genesisSyncInfo.Ports) then
          s.genesisSyncInfo.Networks
        else (PlatformDataOperation.Age now agingTime s.genesisSyncInfo.Networks).1 := by
    simp [SyncStorage.runTick, ageStep_fst, ageStep_snd, Bool.or_assoc]
  have e7 : (SyncStorage.runTick agingTime vifAging now s).1.genesisSyncInfo.IPlastseens
      = if (agedOut now agingTime s.genesisSyncInfo.VIPs
            || agedOut now agingTime s.genesisSyncInfo.VMs
            || agedOut now agingTime s.genesisSyncInfo.VPCs
            || agedOut now agingTime s.genesisSyncInfo.Lldps
            || agedOut now agingTime s.genesisSyncInfo.Ports
            || agedOut now agingTime s.genesisSyncInfo.Networks) then
          s.genesisSyncInfo.IPlastseens
        else (PlatformDataOperation.Age now agingTime s.genesisSyncInfo.IPlastseens).1 := by
    simp [SyncStorage.runTick, ageStep_fst, ageStep_snd, Bool.or_assoc]
  have e8 : (SyncStorage.runTick agingTime vifAging now s).1.genesisSyncInfo.Processes
      = if (agedOut now agingTime s.genesisSyncInfo.VIPs
            || agedOut now agingTime s.genesisSyncInfo.VMs
            || agedOut now agingTime s.genesisSyncInfo.VPCs
            || agedOut now agingTime s.genesisSyncInfo.Lldps
            || agedOut now agingTime s.genesisSyncInfo.Ports
            || agedOut now agingTime s.genesisSyncInfo.Networks
            || agedOut now agingTime s.genesisSyncInfo.IPlastseens) then
          s.genesisSyncInfo.Processes
        else (PlatformDataOperation.Age now agingTime s.genesisSyncInfo.Processes).1 := by
    simp [SyncStorage.runTick, ageStep_fst, ageStep_snd, Bool.or_assoc]
  have e9 : (SyncStorage.runTick agingTime vifAging now s).1.genesisSyncInfo.Vinterfaces
      = if (agedOut now agingTime s.genesisSyncInfo.VIPs
            || agedOut now agingTime s.genesisSyncInfo.VMs
            || agedOut now agingTime s.genesisSyncInfo.VPCs
            || agedOut now agingTime s.genesisSyncInfo.Lldps
            || agedOut now agingTime s.genesisSyncInfo.Ports
            || agedOut now agingTime s.genesisSyncInfo.Networks
            || agedOut now agingTime s.genesisSyncInfo.IPlastseens
            || agedOut now agingTime s.genesisSyncInfo.Processes) then
          s.genesisSyncInfo.Vinterfaces
        else (PlatformDataOperation.Age now vifAging s.genesisSyncInfo.Vinterfaces).1 := by
    simp [SyncStorage.runTick, ageStep_fst, ageStep_snd, Bool.or_assoc]
  refine ⟨?_, ?_, ?_, ?_, ?_, ?_, ?_, ?_, ?_, ?_, ?_, ?_, ?_, ?_, ?_, ?_, ?_⟩
  · rw [e1]
    exact Age_staleFree _ _ _
  · intro h
    rw [e2, if_neg (by simp [h])]
    exact Age_staleFree _ _ _
  · intro h
    rw [e2, if_pos h]
  · intro h
    rw [e3, if_neg (by simp [h])]
    exact Age_staleFree _ _ _
  · intro h
    rw [e3, if_pos h]
  · intro h
    rw [e4, if_neg (by simp [h])]
    exact Age_staleFree _ _ _
  · intro h
    rw [e4, if_pos h]
  · intro h
    rw [e5, if_neg (by simp [h])]
    exact Age_staleFree _ _ _
  · intro h
    rw [e5, if_pos h]
  · intro h
    rw [e6, if_neg (by simp [h])]
    exact Age_staleFree _ _ _
  · intro h
    rw [e6, if_pos h]
  · intro h
    rw [e7, if_neg (by simp [h])]
    exact Age_staleFree _ _ _
  · intro h
    rw [e7, if_pos h]
  · intro h
    rw [e8, if_neg (by simp [h])]
    exact Age_staleFree _ _ _
  · intro h
    rw [e8, if_pos h]
  · intro h
    rw [e9, if_neg (by simp [h])]
    exact Age_staleFree _ _ _
  · intro h
    rw [e9, if_pos h]

/-- Concrete instance of the amended C1: on a state whose VIPs family
reports no change, the VMs family is fully aged on the tick. -/
theorem C1_age_witness :
    staleFree 100 10
      (SyncStorage.runTick 10 10 100 sEmpty).1.genesisSyncInfo.VMs :=
  (C1_age_short_circuit 10 10 100 sEmpty).2.1 (by decide)

/-- Claim C9: the Hosts family is never aged by the persistence loop — a
tick leaves it exactly as it was, regardless of its records'
`last_seen` — yet every snapshot the tick pushes to the fan-out channel
carries the current Hosts set. -/
theorem C9_hosts_not_aged (agingTime vifAging now : Int) (s : SyncStorage) :
    (SyncStorage.runTick agingTime vifAging now s).1.genesisSyncInfo.Hosts
        = s.genesisSyncInfo.Hosts
    ∧ ∀ snap ∈ (SyncStorage.runTick agingTime vifAging now s).2.1,
        snap.Hosts = s.genesisSyncInfo.Hosts := by
  constructor
  · simp [SyncStorage.runTick]
  · intro snap hs
    simp only [SyncStorage.runTick] at hs
    split at hs
    · simp only [List.mem_singleton] at hs
      subst hs
      simp [SyncStorage.fetch, PlatformDataOperation.Fetch]
    · simp at hs

/-- A state with a Hosts record last seen at time 0 (far beyond any TTL at
`now = 100`) and a stale VIP record forcing the tick to report a change
and push a snapshot. -/
def sEx9 : SyncStorage :=
  { genesisSyncInfo :=
      { VIPs := [⟨0, 0⟩], VMs := [], VPCs := [], Hosts := [⟨5, 0⟩],
        Lldps := [], Ports := [], Networks := [], IPlastseens := [],
        Vinterfaces := [], Processes := [] },
    dirty := false }

/-- Concrete instance of C9: the snapshot pushed by a tick that aged the
VIPs family still carries the 100-seconds-old Hosts record. -/
theorem C9_witness :
    (SyncStorage.fetch (SyncStorage.runTick 10 10 100 sEx9).1).Hosts
      = sEx9.genesisSyncInfo.Hosts :=
  (C9_hosts_not_aged 10 10 100 sEx9).2 _ (by decide)

/-- An environment in which the organization-ID enumeration
(`mysql.GetORGIDs()`) fails. -/
def envOrgIDsFail : ReconEnv :=
  { orgIDsRes := Except.error "connection refused",
    getDB := fun _ => Except.error "unused" }

/-- Claim C5 as stated is FALSE on the code: a failure of the
organization-ID enumeration makes `refreshDatabase` log and `return`,
terminating the reconciler task — the tick reports that the loop does not
continue, attempts no delete, and (the `return` preceding `s.dirty =
true`) leaves the dirty flag unset. -/
theorem C5_counterexample :
    (SyncStorage.refreshDatabaseTick "10.0.0.1" envOrgIDsFail sEmpty).2.1 = false
    ∧ (SyncStorage.refreshDatabaseTick "10.0.0.1" envOrgIDsFail sEmpty).2.2 = []
    ∧ (SyncStorage.refreshDatabaseTick "10.0.0.1" envOrgIDsFail sEmpty).1.dirty
        = false :=
  ⟨rfl, rfl, rfl⟩

/-- Claim C5 amended: once the organization-ID enumeration succeeds,
per-organization database failures never terminate the reconciler: the
tick always continues to the next tick and sets `dirty`, and every
organization in the list whose session opens and has invalid rows gets its
delete attempt (with its own success flag), regardless of failures of
other organizations' sessions or deletes.  A failure of the
organization-ID enumeration itself, however, terminates the task. -/
theorem C5_per_org_errors_continue (nodeIP : String) (env : ReconEnv)
    (s : SyncStorage) (orgIDs : List Nat)
    (h : env.orgIDsRes = Except.ok orgIDs) :
    (SyncStorage.refreshDatabaseTick nodeIP env s).2.1 = true
    ∧ (SyncStorage.refreshDatabaseTick nodeIP env s).1.dirty = true
    ∧ ∀ orgID ∈ orgIDs, ∀ db, env.getDB orgID = Except.ok db →
        0 < (invalidStorages nodeIP db).length →
        ({ orgID := orgID, rows := invalidStorages nodeIP db,
           ok := db.deleteOK } : DeleteAttempt)
          ∈ (SyncStorage.refreshDatabaseTick nodeIP env s).2.2 := by
  refine ⟨?_, ?_, ?_⟩
  · simp [SyncStorage.refreshDatabaseTick, h]
  · simp [SyncStorage.refreshDatabaseTick, h]
  · intro orgID horg db hdb hinv
    simp only [SyncStorage.refreshDatabaseTick, h]
    refine List.mem_filterMap.mpr ⟨orgID, horg, ?_⟩
    simp [hdb, hinv]

/-- A working per-organization session: agents 1 and 2 registered, an
ownership row for the long-gone agent 99 on this node, plus rows owned by
agent 1 (valid) and by another node. -/
def db5ok : OrgSession :=
  { vtaps := [1, 2],
    storages := [⟨1, "10.0.0.1"⟩, ⟨99, "10.0.0.1"⟩, ⟨3, "10.0.0.2"⟩],
    deleteOK := true }

/-- An environment whose enumeration yields organizations 7 and 8, where
organization 7's session fails to open and organization 8's works. -/
def env5 : ReconEnv :=
  { orgIDsRes := Except.ok [7, 8],
    getDB := fun o => if o = 8 then Except.ok db5ok else Except.error "db down" }

/-- Concrete instance of the amended C5: although organization 7's session
fails, the tick continues and organization 8's invalid row still gets its
delete attempt. -/
theorem C5_witness :
    (SyncStorage.refreshDatabaseTick "10.0.0.1" env5 sEmpty).2.1 = true
    ∧ ({ orgID := 8, rows := invalidStorages "10.0.0.1" db5ok,
         ok := db5ok.deleteOK } : DeleteAttempt)
        ∈ (SyncStorage.refreshDatabaseTick "10.0.0.1" env5 sEmpty).2.2 :=
  ⟨(C5_per_org_errors_continue "10.0.0.1" env5 sEmpty [7, 8] rfl).1,
   (C5_per_org_errors_continue "10.0.0.1" env5 sEmpty [7, 8] rfl).2.2
     8 (by decide) db5ok rfl (by decide)⟩

/-- Claim C6: `triggerCloudRrefresh` resolves its target as the claim
states: with more than one matching `sub_domain` row it fails with the
ambiguous-cluster error and issues no HTTP request; with zero rows it uses
the KUBERNETES-type domain matching `cluster_id` and sets both lcuuid
parameters to that domain's lcuuid; with exactly one row it uses the
KUBERNETES-type domain whose lcuuid is the row's `domain`, taking
`domainLcuuid` from the domain and `subDomainLcuuid` from the row; and the
resolved non-EXCEPTION controller is targeted at `(pod_ip, listenPort)`
when its `pod_ip` is non-empty, else `(controller_ip, listenNodePort)`. -/
theorem C6_trigger_resolution (listenPort listenNodePort : Nat) (db : MockDB)
    (clusterID : String) (version : Nat) :
    (1 < (db.subDomains.filter fun sd => sd.ClusterID == clusterID).length →
      KubernetesStorage.triggerCloudRrefresh listenPort listenNodePort db
          clusterID version
        = Except.error
            ("cluster_id (" ++ clusterID ++ ") is not unique in mysql table sub_domain")
      ∧ httpRequests (KubernetesStorage.triggerCloudRrefresh listenPort
          listenNodePort db clusterID version) = [])
    ∧ (∀ d c, (db.subDomains.filter fun sd => sd.ClusterID == clusterID) = [] →
        (db.domains.find? fun d2 =>
            d2.ClusterID == clusterID && d2.typ == KUBERNETES) = some d →
        (db.controllers.find? fun c2 =>
            c2.IP == d.ControllerIP
              && c2.State != CONTROLLER_STATE_EXCEPTION) = some c →
        KubernetesStorage.triggerCloudRrefresh listenPort listenNodePort db
            clusterID version
          = Except.ok
              { ip := if c.PodIP != "" then c.PodIP else d.ControllerIP,
                port := if c.PodIP != "" then listenPort else listenNodePort,
                domainLcuuid := d.Lcuuid, subDomainLcuuid := d.Lcuuid,
                version := version })
    ∧ (∀ sd d c,
        (db.subDomains.filter fun s2 => s2.ClusterID == clusterID) = [sd] →
        (db.domains.find? fun d2 =>
            d2.Lcuuid == sd.Domain && d2.typ == KUBERNETES) = some d →
        (db.controllers.find? fun c2 =>
            c2.IP == d.ControllerIP
              && c2.State != CONTROLLER_STATE_EXCEPTION) = some c →
        KubernetesStorage.triggerCloudRrefresh listenPort listenNodePort db
            clusterID version
          = Except.ok
              { ip := if c.PodIP != "" then c.PodIP else d.ControllerIP,
                port := if c.PodIP != "" then listenPort else listenNodePort,
                domainLcuuid := d.Lcuuid, subDomainLcuuid := sd.Lcuuid,
                version := version }) := by
  refine ⟨?_, ?_, ?_⟩
  · intro h
    rcases hL : db.subDomains.filter fun sd => sd.ClusterID == clusterID with
      _ | ⟨a, _ | ⟨b, t⟩⟩
    · rw [hL] at h
      simp at h
    · rw [hL] at h
      simp at h
    · constructor
      · simp [KubernetesStorage.triggerCloudRrefresh, hL]
      · simp [KubernetesStorage.triggerCloudRrefresh, hL, httpRequests]
  · intro d c h0 hd hc
    by_cases hp : (c.PodIP != "") = true
    · simp [KubernetesStorage.triggerCloudRrefresh, h0, hd, hc, hp]
    · simp only [Bool.not_eq_true] at hp
      simp [KubernetesStorage.triggerCloudRrefresh, h0, hd, hc, hp]
  · intro sd d c h1 hd hc
    by_cases hp : (c.PodIP != "") = true
    · simp [KubernetesStorage.triggerCloudRrefresh, h1, hd, hc, hp]
    · simp only [Bool.not_eq_true] at hp
      simp [KubernetesStorage.triggerCloudRrefresh, h1, hd, hc, hp]

/-- A KUBERNETES-type domain directly carrying the cluster id (the
zero-sub_domain case). -/
def dom6 : Domain :=
  { Lcuuid := "dl", ClusterID := "c0", ControllerIP := "1.2.3.4",
    typ := KUBERNETES }

/-- A controller for `dom6` without a pod IP (node-port targeting). -/
def ctl6 : Controller := { IP := "1.2.3.4", PodIP := "", State := 0 }

/-- A database with no sub_domain rows for cluster c0. -/
def db6zero : MockDB :=
  { subDomains := [], domains := [dom6], controllers := [ctl6] }

/-- The single sub_domain row of cluster c1, pointing at domain dl2. -/
def sd6 : SubDomain := { Lcuuid := "sdl", Domain := "dl2", ClusterID := "c1" }

/-- The KUBERNETES-type domain referenced by `sd6`. -/
def dom6b : Domain :=
  { Lcuuid := "dl2", ClusterID := "", ControllerIP := "1.2.3.5",
    typ := KUBERNETES }

/-- A controller for `dom6b` with a pod IP (pod targeting). -/
def ctl6b : Controller := { IP := "1.2.3.5", PodIP := "9.9.9.9", State := 0 }

/-- A database in which cluster c1 has exactly one sub_domain row. -/
def db6one : MockDB :=
  { subDomains := [sd6], domains := [dom6b], controllers := [ctl6b] }

/-- A database in which cluster c1 has two sub_domain rows (ambiguous). -/
def db6amb : MockDB :=
  { subDomains := [sd6, sd6], domains := [], controllers := [] }

/-- Concrete instances of C6: the ambiguous-cluster error, the
zero-sub_domain resolution over the node port, and the one-sub_domain
resolution over the pod IP and listen port. -/
theorem C6_witness :
    KubernetesStorage.triggerCloudRrefresh 111 222 db6amb "c1" 9
      = Except.error
          ("cluster_id (" ++ "c1" ++ ") is not unique in mysql table sub_domain")
    ∧ KubernetesStorage.triggerCloudRrefresh 111 222 db6zero "c0" 9
        = Except.ok
            { ip := if ctl6.PodIP != "" then ctl6.PodIP else dom6.ControllerIP,
              port := if ctl6.PodIP != "" then 111 else 222,
              domainLcuuid := dom6.Lcuuid, subDomainLcuuid := dom6.Lcuuid,
              version := 9 }
    ∧ KubernetesStorage.triggerCloudRrefresh 111 222 db6one "c1" 9
        = Except.ok
            { ip := if ctl6b.PodIP != "" then ctl6b.PodIP else dom6b.ControllerIP,
              port := if ctl6b.PodIP != "" then 111 else 222,
              domainLcuuid := dom6b.Lcuuid, subDomainLcuuid := sd6.Lcuuid,
              version := 9 } :=
  ⟨((C6_trigger_resolution 111 222 db6amb "c1" 9).1 (by decide)).1,
   (C6_trigger_resolution 111 222 db6zero "c0" 9).2.1 dom6 ctl6
     (by decide) (by decide) (by decide),
   (C6_trigger_resolution 111 222 db6one "c1" 9).2.2 sd6 dom6b ctl6b
     (by decide) (by decide) (by decide)⟩

end Genesis
